import Mathlib

/-!
Verification development for `src/substack_bot.py` (SubstackBot).

The file is a shallow embedding of the pure logic of the bot:

* the numeric extraction applied to scraped element texts
  (`re.search(r'([0-9]+[.,]?[0-9]*)', text)` followed by `.replace(',', '')`
  and `float`, lines 88-96 and 116-124);
* the per-field selector fallback loop of `extract_ohlc_data` (lines 81-101),
  the any-visible-price fallback (lines 104-127) and the OHLC estimation
  step (lines 129-144);
* the message formatter `format_market_analysis` (lines 238-273);
* the selector fallback logic of `post_to_substack_chat` (lines 180-227);
* the orchestration decision of `run_analysis` (lines 286-300).

Python floats are modelled as exact rationals (`ℚ`); the decimal literals
`0.01`, `0.6`, `0.2` of the source denote the corresponding exact decimal
fractions here.  The browser is abstracted away: each selector's observable
contribution (the inner texts of the elements it matched, or whether it
matched an element at all) is an explicit input of the embedded function,
so the embedded functions range over every DOM response the driver could
produce.
-/

set_option maxHeartbeats 1000000
set_option maxRecDepth 16384

/-- Truthiness of an optional float field exactly as Python evaluates it in
`if ohlc_data[field]:`, `x or y`, `any([...])`, `all([...])`:
`None` and `0.0` are falsy, every other float is truthy. -/
def truthy : Option ℚ → Bool
  | none => false
  | some v => decide (v ≠ 0)

/-- Value of a list of decimal digit characters read left to right. -/
def digits_to_nat (l : List Char) : Nat :=
  l.foldl (fun a c => 10 * a + (c.toNat - 48)) 0

/-- The match of `re.search(r'([0-9]+[.,]?[0-9]*)', text)` on the character
list of `text`: the leftmost maximal digit run, at most one following `.` or
`,`, and the maximal digit run after that separator.  Returns the three match
components, or `none` when the text contains no digit. -/
def find_numeric_match : List Char → Option (List Char × Option Char × List Char)
  | [] => none
  | c :: rest =>
    if c.isDigit then
      let d1 := (c :: rest).takeWhile Char.isDigit
      let r1 := (c :: rest).dropWhile Char.isDigit
      match r1 with
      | [] => some (d1, none, [])
      | s :: r2 =>
        if s = '.' ∨ s = ',' then some (d1, some s, r2.takeWhile Char.isDigit)
        else some (d1, none, [])
    else find_numeric_match rest

/-- Value of a regex match after `value = numeric_match.group(1).replace(',', '')`
and `float(value)` (lines 90-92): a comma separator is deleted, so the digit
runs concatenate into an integer; a dot separator makes the second run a
decimal fraction.  The `ValueError` branch of the source is unreachable for
strings of this shape, so the parse always succeeds. -/
def match_value : List Char × Option Char × List Char → ℚ
  | (d1, some ',', d2) => (digits_to_nat (d1 ++ d2) : ℚ)
  | (d1, some '.', d2) => (digits_to_nat d1 : ℚ) + (digits_to_nat d2 : ℚ) / (10 ^ d2.length : ℚ)
  | (d1, _, _) => (digits_to_nat d1 : ℚ)

/-- The numeric-extraction step applied to one element text
(lines 88-92, likewise lines 116-120). -/
def extract_number (text : String) : Option ℚ :=
  (find_numeric_match text.toList).map match_value

/-- The inner element loop of lines 85-96: the first element text whose
regex search matches yields the field's value (the `float` call cannot fail
on a matched string, so the first match wins); no match leaves the field
unassigned. -/
def first_parse : List String → Option ℚ
  | [] => none
  | t :: rest =>
    match extract_number t with
    | some v => some v
    | none => first_parse rest

/-- The per-field selector loop of lines 81-101: each selector contributes
the texts of the elements it matched (a failing selector contributes `[]`);
the first parsable text of a selector overwrites the field's value, and the
next selector is tried only while the field's current value is falsy
(`if ohlc_data[field]: break`, line 97). -/
def scan_field (cur : Option ℚ) : List (List String) → Option ℚ
  | [] => cur
  | sel :: rest =>
    let cur2 :=
      match first_parse sel with
      | some v => some v
      | none => cur
    if truthy cur2 then cur2 else scan_field cur2 rest

/-- The snapshot dictionary built at lines 42-49 (field `open` of the source
is called `open_` here because `open` is a Lean keyword). -/
structure OHLCData where
  symbol : String
  open_ : Option ℚ
  high : Option ℚ
  low : Option ℚ
  close : Option ℚ
  timestamp : String
deriving DecidableEq

/-- The observable DOM responses one call of `extract_ohlc_data` consumes:
for each OHLC field, the element texts each of its selectors matched, in
selector order, and the element texts of the alternative "any visible price"
selectors of line 113. -/
structure ExtractInputs where
  openTexts : List (List String)
  highTexts : List (List String)
  lowTexts : List (List String)
  closeTexts : List (List String)
  fallbackTexts : List String
deriving DecidableEq

/-- The instrument-specific assumed intraday range of lines 134-140. -/
def range_est (symbol : String) (close_price : ℚ) : ℚ :=
  if symbol = "ES1!" then 15
  else if symbol = "NQ1!" then 75
  else close_price * 0.01

/-- Lines 129-144: if `close` is truthy and not all of open/high/low are
truthy, fill each non-truthy one from the assumed range
(`ohlc_data['high'] = ohlc_data['high'] or close_price + (range_est * 0.6)`
keeps a truthy value and replaces `None` or `0.0`). -/
def estimate_missing (s : OHLCData) : OHLCData :=
  if truthy s.close && !(truthy s.open_ && truthy s.high && truthy s.low) then
    let close_price := s.close.getD 0
    let r := range_est s.symbol close_price
    { s with
      high := if truthy s.high then s.high else some (close_price + r * 0.6)
      low := if truthy s.low then s.low else some (close_price - r * 0.6)
      open_ := if truthy s.open_ then s.open_ else some (close_price + r * 0.2) }
  else s

/-- The pure core of `extract_ohlc_data` (lines 42-146), as a function of
the symbol, the DOM responses and the timestamp string of line 48.  The
fallback of lines 104-127 runs only when all four scanned fields are falsy
and it assigns `close` from the first parsable "any visible price" text
(`if numeric_match and not ohlc_data['close']`, line 117).  The `None`
result of the source (line 150) corresponds to a page-level exception and
is represented by the orchestrator receiving `none` instead. -/
def extract_ohlc_data (symbol : String) (inp : ExtractInputs) (timestamp : String) : OHLCData :=
  let o := scan_field none inp.openTexts
  let h := scan_field none inp.highTexts
  let l := scan_field none inp.lowTexts
  let c := scan_field none inp.closeTexts
  let c :=
    if truthy o || truthy h || truthy l || truthy c then c
    else
      match first_parse inp.fallbackTexts with
      | some v => some v
      | none => c
  estimate_missing
    { symbol := symbol, open_ := o, high := h, low := l, close := c, timestamp := timestamp }

/-- Zero-padding to two characters, as `%H`/`%M` of `strftime` and the
two-digit fraction of `%.2f` produce. -/
def pad2 (n : Nat) : String :=
  if n < 10 then "0" ++ toString n else toString n

/-- Python's `f"{x:.2f}"` fixed-point rendering, on the exact rational model:
round `x` to a whole number of hundredths and print with two decimals.
(Python rounds the underlying binary double half-to-even; on the exact
decimal values arising here the two agree, and no claim depends on a
half-a-hundredth tie.) -/
def fmt2 (x : ℚ) : String :=
  let n : ℤ := ⌊x * 100 + 1 / 2⌋
  let a := n.natAbs
  let core := toString (a / 100) ++ "." ++ pad2 (a % 100)
  if n < 0 then "-" ++ core else core

/-- The wall-clock reading `datetime.now(timezone.utc)` taken at line 243,
restricted to the components that could influence the message. -/
structure UTCTime where
  day : Nat
  hour : Nat
  minute : Nat
  second : Nat
deriving DecidableEq

/-- Line 243: `datetime.now(timezone.utc).strftime('%H:%M UTC')` — only the
hour and minute of the clock reading are rendered. -/
def strftime_hm (t : UTCTime) : String :=
  pad2 t.hour ++ ":" ++ pad2 t.minute ++ " UTC"

/-- One instrument section of the formatter.  Lines 247-256 (ES) and
258-267 (NQ) are the same statement sequence with a different title and
snapshot, so they are embedded once with those as parameters: Python's
`message += ...` accumulation becomes a rebinding of `message`,
`if es_data and es_data['close']:` becomes the `match`/`if truthy` pair,
and f-string interpolation becomes concatenation. -/
def append_block (message : String) (title : String) (data : Option OHLCData) : String :=
  match data with
  | none => message
  | some d =>
    if truthy d.close then
      let message := message ++ title
      let message := message ++ ("Current/Last: " ++ fmt2 (d.close.getD 0) ++ "\n")
      let message :=
        if truthy d.high then message ++ ("Resistance: " ++ fmt2 (d.high.getD 0) ++ " (High)\n")
        else message
      let message :=
        if truthy d.low then message ++ ("Support: " ++ fmt2 (d.low.getD 0) ++ " (Low)\n")
        else message
      let message :=
        if truthy d.open_ then message ++ ("Open: " ++ fmt2 (d.open_.getD 0) ++ "\n")
        else message
      message ++ "\n"
    else message

/-- The formatter `format_market_analysis` (lines 238-273), translated
statement by statement. -/
def format_market_analysis (es_data nq_data : Option OHLCData) (now : UTCTime) : String :=
  let timestamp := strftime_hm now
  let message := "📊 Market Update - " ++ timestamp ++ "\n\n"
  let message := append_block message "🔹 ES (S&P 500 Futures)\n" es_data
  let message := append_block message "🔹 NQ (Nasdaq Futures)\n" nq_data
  let message := message ++ "⚡ Key levels extracted from TradingView OHLC data\n"
  let message := message ++ "📈 Support = Low | Resistance = High | Current = Close\n"
  message ++ "#Trading #Futures #ES #NQ #TradingView"

/-- The fixed opening line of the message (line 245). -/
def header_str (now : UTCTime) : String :=
  "📊 Market Update - " ++ strftime_hm now ++ "\n\n"

/-- The fixed trailing annotation lines and hashtags (lines 269-271). -/
def trailer_str : String :=
  "⚡ Key levels extracted from TradingView OHLC data\n"
    ++ "📈 Support = Low | Resistance = High | Current = Close\n"
    ++ "#Trading #Futures #ES #NQ #TradingView"

/-- Specification-side characterization of one instrument block of the
message: empty when the snapshot is `none` or its `close` is falsy,
otherwise the title followed by the Current/Last line and the conditional
Resistance, Support and Open lines, in that order, and a blank line. -/
def market_block (title : String) (data : Option OHLCData) : String :=
  match data with
  | none => ""
  | some d =>
    if truthy d.close then
      title ++ ("Current/Last: " ++ fmt2 (d.close.getD 0) ++ "\n")
        ++ (if truthy d.high then "Resistance: " ++ fmt2 (d.high.getD 0) ++ " (High)\n" else "")
        ++ (if truthy d.low then "Support: " ++ fmt2 (d.low.getD 0) ++ " (Low)\n" else "")
        ++ (if truthy d.open_ then "Open: " ++ fmt2 (d.open_.getD 0) ++ "\n" else "")
        ++ "\n"
    else ""

/-- Title line of the ES block (line 248). -/
def es_title : String := "🔹 ES (S&P 500 Futures)\n"

/-- Title line of the NQ block (line 259). -/
def nq_title : String := "🔹 NQ (Nasdaq Futures)\n"

/-- The ordered chat-input selector list of lines 181-188. -/
def input_selectors : List String :=
  ["[data-testid=\"chat-input\"]",
   ".chat-input",
   "textarea[placeholder*=\"message\"]",
   "div[contenteditable=\"true\"]",
   ".ProseMirror",
   "textarea"]

/-- The ordered send-button selector list of lines 207-212. -/
def send_selectors : List String :=
  ["[data-testid=\"send-button\"]",
   "button[type=\"submit\"]",
   ".send-button",
   "button[aria-label*=\"Send\"]"]

/-- How `post_to_substack_chat` ends up submitting the filled message:
by clicking the first matching send button, or by the keyboard Enter
fallback of line 227. -/
inductive SendMethod where
  | button (selector : String)
  | enterKey
deriving DecidableEq

/-- An accepted submission: the message that was filled into the input
control and the way it was sent. -/
structure PostResult where
  filled : String
  sent : SendMethod
deriving DecidableEq

/-- The selector logic of `post_to_substack_chat` (lines 180-227), as a
function of the page's response to each selector (`page sel = true` when
the selector resolves to an element, covering both the `wait_for_selector`
probes for the input control and the `query_selector` probes for the send
button; a timeout or error counts as no element, matching the swallowing
`except: continue` arms).  No input control at all raises
`Exception("Could not find chat input field")` (line 200); no send button
falls back to pressing Enter (lines 225-227) and raises nothing. -/
def post_to_substack_chat (page : String → Bool) (message : String) : Except String PostResult :=
  match input_selectors.find? page with
  | none => .error "Could not find chat input field"
  | some _ =>
    match send_selectors.find? page with
    | some sel => .ok { filled := message, sent := .button sel }
    | none => .ok { filled := message, sent := .enterKey }

/-- The decision core of `run_analysis` (lines 286-300), as a function of
the two joined extraction results: `None` for an extraction that raised,
the built snapshot otherwise.  The value `none` means the run returned at
line 290 without attempting to publish; `some msg` means
`post_to_substack_chat` was invoked with `msg` (line 300). -/
def run_analysis (now : UTCTime) (es_data nq_data : Option OHLCData) : Option String :=
  match es_data, nq_data with
  | none, none => none
  | _, _ => some (format_market_analysis es_data nq_data now)

/-- Generic prefix test on character lists, used only to state occurrence
facts about concrete messages. -/
def list_starts_with : List Char → List Char → Bool
  | _, [] => true
  | [], _ :: _ => false
  | a :: as, b :: bs => a = b && list_starts_with as bs

/-- Generic substring-occurrence test on character lists, used only to
state occurrence facts about concrete messages. -/
def contains_sub : List Char → List Char → Bool
  | [], nee => nee.isEmpty
  | h :: t, nee => list_starts_with (h :: t) nee || contains_sub t nee

/-! ### Helper lemmas -/

/-- Unfolding lemma for the truthiness of a present value. -/
theorem truthy_some (v : ℚ) : truthy (some v) = decide (v ≠ 0) := rfl

/-- A present `0.0` is falsy, exactly like an absent value. -/
theorem truthy_zero : truthy (some 0) = false := by
  norm_num [truthy]

/-- The incremental accumulation of one instrument section equals appending
that instrument's block string. -/
theorem append_block_eq (m title : String) (d : Option OHLCData) :
    append_block m title d = m ++ market_block title d := by
  cases d <;>
    simp only [append_block, market_block] <;>
    (try split_ifs) <;>
    simp only [String.append_assoc, String.append_empty, String.empty_append]

/-- The formatter decomposes into the fixed header, one block per
instrument and the fixed trailer. -/
theorem format_decomp (es nq : Option OHLCData) (t : UTCTime) :
    format_market_analysis es nq t =
      header_str t ++ market_block es_title es ++ market_block nq_title nq ++ trailer_str := by
  simp only [format_market_analysis, append_block_eq, header_str, trailer_str, es_title,
    nq_title, String.append_assoc]

/-! ### Claim theorems -/

/-- C1: the numeric-extraction step on the spec's own example input
`"4,521.25 USD"` produces `4521`, not the `4521.25` the claim states: the
regex `([0-9]+[.,]?[0-9]*)` admits only a single separator, so it captures
`"4,521"` and the decimal part is lost.  An input with only a decimal
point parses as expected, so the comma-stripping intent of the code is
defeated exactly when a thousands separator and a decimal point occur
together. -/
theorem c1_numeric_extraction_truncates :
    extract_number "4,521.25 USD" = some 4521
      ∧ extract_number "4521.25 USD" = some (18085 / 4)
      ∧ (4521 : ℚ) ≠ 18085 / 4 :=
  ⟨by with_unfolding_all rfl, by with_unfolding_all rfl, by norm_num⟩

/-- C5: for every combination of null and partial inputs the formatter is a
total function into strings: its output is always the fixed header followed
by the two (possibly empty) instrument blocks and the fixed trailing lines,
so absence of data only ever removes block content and can never make the
call fail. -/
theorem c5_formatter_total (es nq : Option OHLCData) (t : UTCTime) :
    format_market_analysis es nq t =
      header_str t ++ market_block es_title es ++ market_block nq_title nq ++ trailer_str :=
  format_decomp es nq t

/-- C7: the formatter's output depends on the wall clock only through the
hour and minute rendered in the header, so two calls with identical
snapshot inputs whose clock readings agree on hour and minute (in
particular two calls within the same minute) yield identical strings. -/
theorem c7_formatter_pure_same_minute (es nq : Option OHLCData) (t t' : UTCTime)
    (hh : t.hour = t'.hour) (hm : t.minute = t'.minute) :
    format_market_analysis es nq t = format_market_analysis es nq t' := by
  have hs : strftime_hm t = strftime_hm t' := by
    simp only [strftime_hm, hh, hm]
  simp only [format_market_analysis, hs]

/-- C7 witness: two clock readings in the same minute but with different
day and second fields produce the same message. -/
theorem c7_formatter_pure_witness :
    format_market_analysis none none ⟨1, 12, 30, 5⟩ =
      format_market_analysis none none ⟨2, 12, 30, 59⟩ :=
  c7_formatter_pure_same_minute none none ⟨1, 12, 30, 5⟩ ⟨2, 12, 30, 59⟩ rfl rfl

/-- C9: a present field holding `0.0` is falsy in Python, so the formatter
treats it exactly like an absent field: a zero `close` suppresses the whole
instrument block (for either instrument argument), and a zero `open`,
`high` or `low` suppresses just that line. -/
theorem c9_zero_field_treated_as_absent (s : OHLCData) (other : Option OHLCData) (t : UTCTime) :
    (format_market_analysis (some { s with close := some 0 }) other t =
        format_market_analysis (some { s with close := none }) other t)
      ∧ (format_market_analysis other (some { s with close := some 0 }) t =
          format_market_analysis other (some { s with close := none }) t)
      ∧ (format_market_analysis (some { s with high := some 0 }) other t =
          format_market_analysis (some { s with high := none }) other t)
      ∧ (format_market_analysis (some { s with low := some 0 }) other t =
          format_market_analysis (some { s with low := none }) other t)
      ∧ (format_market_analysis (some { s with open_ := some 0 }) other t =
          format_market_analysis (some { s with open_ := none }) other t)
      ∧ (format_market_analysis other (some { s with open_ := some 0 }) t =
          format_market_analysis other (some { s with open_ := none }) t) := by
  refine ⟨?_, ?_, ?_, ?_, ?_, ?_⟩ <;>
    simp [format_decomp, market_block, truthy_zero, truthy, String.append_assoc,
      String.append_empty, String.empty_append]

/-- C10: an extraction run in which every selector and the fallback come up
empty returns the all-absent snapshot rather than null, and the orchestrator
therefore does not short-circuit: it formats a message consisting of the
header and the fixed trailing lines only (no instrument block) and still
hands it to the publisher. -/
theorem c10_all_absent_still_published (sym1 sym2 ts1 ts2 : String) (t : UTCTime) :
    extract_ohlc_data sym1 ⟨[], [], [], [], []⟩ ts1 =
      { symbol := sym1, open_ := none, high := none, low := none, close := none,
        timestamp := ts1 }
      ∧ run_analysis t (some (extract_ohlc_data sym1 ⟨[], [], [], [], []⟩ ts1))
          (some (extract_ohlc_data sym2 ⟨[], [], [], [], []⟩ ts2)) =
        some (header_str t ++ trailer_str) := by
  constructor
  · rfl
  · have h1 : extract_ohlc_data sym1 ⟨[], [], [], [], []⟩ ts1 =
        { symbol := sym1, open_ := none, high := none, low := none, close := none,
          timestamp := ts1 } := rfl
    have h2 : extract_ohlc_data sym2 ⟨[], [], [], [], []⟩ ts2 =
        { symbol := sym2, open_ := none, high := none, low := none, close := none,
          timestamp := ts2 } := rfl
    rw [h1, h2]
    show some (format_market_analysis _ _ t) = _
    rw [format_decomp]
    simp [market_block, truthy, String.append_empty]

/-- C2 counterexample: a snapshot whose `open` is present with value `0.0`
and whose `close` is `100` has its present `open` overwritten by the
estimation step (Python's `x or y` takes `y` when `x` is `0.0`), so a
present field is not always kept. -/
theorem c2_estimation_counterexample :
    (⟨"XX1!", some 0, none, none, some 100, "t"⟩ : OHLCData).open_ = some 0
      ∧ (estimate_missing ⟨"XX1!", some 0, none, none, some 100, "t"⟩).open_ = some (501 / 5)
      ∧ some (501 / 5) ≠ (some 0 : Option ℚ) :=
  ⟨rfl, by with_unfolding_all rfl, by simp only [ne_eq, Option.some.injEq]; norm_num⟩

/-- C2 amended: when `close` is present and nonzero, the estimation step
keeps `symbol`, `timestamp` and `close`, keeps each of open/high/low that
is present and nonzero, and fills each that is absent or zero with
`close + 0.6*range` (high), `close - 0.6*range` (low), `close + 0.2*range`
(open), where the range is 15 for `ES1!`, 75 for `NQ1!` and 1% of `close`
otherwise. -/
theorem c2_estimation_amended (s : OHLCData) (hc : truthy s.close = true) :
    (estimate_missing s).symbol = s.symbol
      ∧ (estimate_missing s).timestamp = s.timestamp
      ∧ (estimate_missing s).close = s.close
      ∧ (estimate_missing s).high =
          (if truthy s.high then s.high
           else some (s.close.getD 0 + range_est s.symbol (s.close.getD 0) * 0.6))
      ∧ (estimate_missing s).low =
          (if truthy s.low then s.low
           else some (s.close.getD 0 - range_est s.symbol (s.close.getD 0) * 0.6))
      ∧ (estimate_missing s).open_ =
          (if truthy s.open_ then s.open_
           else some (s.close.getD 0 + range_est s.symbol (s.close.getD 0) * 0.2)) := by
  by_cases ho : truthy s.open_ = true <;> by_cases hh : truthy s.high = true <;>
      by_cases hl : truthy s.low = true <;>
    simp [estimate_missing, hc, ho, hh, hl]

/-- C2 witness: for the known symbol `ES1!` with `close = 4521.25` and all
other fields absent, the estimation produces `high = 4530.25`,
`low = 4512.25`, `open = 4524.25` (range constant 15) and keeps `close`. -/
theorem c2_estimation_witness :
    (estimate_missing ⟨"ES1!", none, none, none, some (18085 / 4), "t"⟩).close =
        some (18085 / 4)
      ∧ (estimate_missing ⟨"ES1!", none, none, none, some (18085 / 4), "t"⟩).high =
          some (18121 / 4)
      ∧ (estimate_missing ⟨"ES1!", none, none, none, some (18085 / 4), "t"⟩).low =
          some (18049 / 4)
      ∧ (estimate_missing ⟨"ES1!", none, none, none, some (18085 / 4), "t"⟩).open_ =
          some (18097 / 4) := by
  have h := c2_estimation_amended ⟨"ES1!", none, none, none, some (18085 / 4), "t"⟩
    (by norm_num [truthy])
  refine ⟨h.2.2.1, ?_, ?_, ?_⟩
  · rw [h.2.2.2.1]; norm_num [truthy, range_est]
  · rw [h.2.2.2.2.1]; norm_num [truthy, range_est]
  · rw [h.2.2.2.2.2]; norm_num [truthy, range_est]

/-- C3 counterexample: a snapshot with all four fields present but
`high = 0.0` produces a block with no Resistance line (the message below
has only Current, Support and Open lines — the needle `"Resistance:"` with
the colon matches the line label and nothing in the fixed trailer), so "all
four fields present" does not imply all four lines appear. -/
theorem c3_formatter_counterexample :
    format_market_analysis
        (some ⟨"ES1!", some 4515, some 0, some (9021 / 2), some (18085 / 4), "ts"⟩) none
        ⟨1, 12, 30, 0⟩ =
      "📊 Market Update - 12:30 UTC\n\n🔹 ES (S&P 500 Futures)\nCurrent/Last: 4521.25\nSupport: 4510.50 (Low)\nOpen: 4515.00\n\n⚡ Key levels extracted from TradingView OHLC data\n📈 Support = Low | Resistance = High | Current = Close\n#Trading #Futures #ES #NQ #TradingView"
      ∧ contains_sub
          ("📊 Market Update - 12:30 UTC\n\n🔹 ES (S&P 500 Futures)\nCurrent/Last: 4521.25\nSupport: 4510.50 (Low)\nOpen: 4515.00\n\n⚡ Key levels extracted from TradingView OHLC data\n📈 Support = Low | Resistance = High | Current = Close\n#Trading #Futures #ES #NQ #TradingView").toList
          "Resistance:".toList = false :=
  ⟨by with_unfolding_all rfl, by decide⟩

/-- C3 amended: for snapshots whose fields are, when present, nonzero: the
block of a snapshot with all four fields present contains the four lines in
the order Current, Resistance, Support, Open; a snapshot with absent
`close`, and a null snapshot, contribute no block at all; an absent field
(here `low`) just loses its line; and the fixed trailer (and header) are
present in every case.  A present zero field is treated as absent
(see the C9 theorem), which is the one correction to the claim. -/
theorem c3_formatter_blocks_amended (sym ts : String) (o h l c : ℚ) (nq : Option OHLCData)
    (t : UTCTime) (ho : o ≠ 0) (hh : h ≠ 0) (hl : l ≠ 0) (hc : c ≠ 0) :
    format_market_analysis (some ⟨sym, some o, some h, some l, some c, ts⟩) nq t =
        header_str t
          ++ (es_title ++ ("Current/Last: " ++ fmt2 c ++ "\n")
            ++ ("Resistance: " ++ fmt2 h ++ " (High)\n")
            ++ ("Support: " ++ fmt2 l ++ " (Low)\n")
            ++ ("Open: " ++ fmt2 o ++ "\n") ++ "\n")
          ++ market_block nq_title nq ++ trailer_str
      ∧ format_market_analysis (some ⟨sym, some o, some h, some l, none, ts⟩) nq t =
          header_str t ++ market_block nq_title nq ++ trailer_str
      ∧ format_market_analysis none nq t =
          header_str t ++ market_block nq_title nq ++ trailer_str
      ∧ format_market_analysis (some ⟨sym, some o, some h, none, some c, ts⟩) nq t =
          header_str t
            ++ (es_title ++ ("Current/Last: " ++ fmt2 c ++ "\n")
              ++ ("Resistance: " ++ fmt2 h ++ " (High)\n")
              ++ ("Open: " ++ fmt2 o ++ "\n") ++ "\n")
            ++ market_block nq_title nq ++ trailer_str := by
  refine ⟨?_, ?_, ?_, ?_⟩ <;>
    simp [format_decomp, market_block, truthy, ho, hh, hl, hc, String.append_assoc,
      String.append_empty, String.empty_append]

/-- C3 witness: the amended theorem applied to the spec's §8 end-to-end
scenario — ES snapshot `{close: 4521.25, high: 4530.0, low: 4510.5,
open: 4515.0}` and null NQ — yields the four ES lines in order and no NQ
block. -/
theorem c3_formatter_blocks_witness :
    format_market_analysis
        (some ⟨"ES1!", some 4515, some 4530, some (9021 / 2), some (18085 / 4), "ts"⟩) none
        ⟨1, 12, 30, 0⟩ =
      "📊 Market Update - 12:30 UTC\n\n🔹 ES (S&P 500 Futures)\nCurrent/Last: 4521.25\nResistance: 4530.00 (High)\nSupport: 4510.50 (Low)\nOpen: 4515.00\n\n⚡ Key levels extracted from TradingView OHLC data\n📈 Support = Low | Resistance = High | Current = Close\n#Trading #Futures #ES #NQ #TradingView" := by
  have h := c3_formatter_blocks_amended "ES1!" "ts" 4515 4530 (9021 / 2) (18085 / 4) none
    ⟨1, 12, 30, 0⟩ (by norm_num) (by norm_num) (by norm_num) (by norm_num)
  rw [h.1]
  with_unfolding_all rfl

/-- C4 counterexample: the ES extraction returns null and the NQ extraction
returns a snapshot with no `close` (which the extractor can produce, see
the C10 theorem): exactly one extraction is null, publishing is attempted,
but the published message contains no NQ block (the needle `"🔹 NQ"` is the
block title; the trailing hashtag `#NQ` is not matched). -/
theorem c4_orchestrator_counterexample :
    run_analysis ⟨1, 12, 30, 0⟩ none (some ⟨"NQ1!", none, none, none, none, "ts"⟩) =
      some
        "📊 Market Update - 12:30 UTC\n\n⚡ Key levels extracted from TradingView OHLC data\n📈 Support = Low | Resistance = High | Current = Close\n#Trading #Futures #ES #NQ #TradingView"
      ∧ contains_sub
          ("📊 Market Update - 12:30 UTC\n\n⚡ Key levels extracted from TradingView OHLC data\n📈 Support = Low | Resistance = High | Current = Close\n#Trading #Futures #ES #NQ #TradingView").toList
          "🔹 NQ".toList = false :=
  ⟨by with_unfolding_all rfl, by decide⟩

/-- C4 amended: if both extractions return null the orchestrator publishes
nothing and simply returns; if exactly one returns null, publishing is
attempted with the formatted message, and that message contains the
surviving instrument's block provided that snapshot's `close` is present
and nonzero (an all-absent snapshot yields a block-less message that is
still published). -/
theorem c4_orchestrator_amended (t : UTCTime) (s' s : OHLCData)
    (hc : truthy s.close = true) :
    run_analysis t none none = none
      ∧ run_analysis t (some s') none = some (format_market_analysis (some s') none t)
      ∧ run_analysis t none (some s') = some (format_market_analysis none (some s') t)
      ∧ format_market_analysis (some s) none t =
          header_str t
            ++ (es_title ++ ("Current/Last: " ++ fmt2 (s.close.getD 0) ++ "\n")
              ++ (if truthy s.high then "Resistance: " ++ fmt2 (s.high.getD 0) ++ " (High)\n"
                  else "")
              ++ (if truthy s.low then "Support: " ++ fmt2 (s.low.getD 0) ++ " (Low)\n"
                  else "")
              ++ (if truthy s.open_ then "Open: " ++ fmt2 (s.open_.getD 0) ++ "\n" else "")
              ++ "\n")
            ++ trailer_str
      ∧ format_market_analysis none (some s) t =
          header_str t
            ++ (nq_title ++ ("Current/Last: " ++ fmt2 (s.close.getD 0) ++ "\n")
              ++ (if truthy s.high then "Resistance: " ++ fmt2 (s.high.getD 0) ++ " (High)\n"
                  else "")
              ++ (if truthy s.low then "Support: " ++ fmt2 (s.low.getD 0) ++ " (Low)\n"
                  else "")
              ++ (if truthy s.open_ then "Open: " ++ fmt2 (s.open_.getD 0) ++ "\n" else "")
              ++ "\n")
            ++ trailer_str := by
  refine ⟨rfl, rfl, rfl, ?_, ?_⟩ <;>
    simp [format_decomp, market_block, hc, String.append_assoc, String.append_empty,
      String.empty_append]

/-- C4 witness: both-null gives no publish attempt; one-null gives a
publish attempt; a surviving NQ snapshot with nonzero `close = 1` yields a
message with the NQ block. -/
theorem c4_orchestrator_witness :
    run_analysis ⟨0, 0, 0, 0⟩ none none = none
      ∧ run_analysis ⟨0, 0, 0, 0⟩ (some ⟨"X", none, none, none, none, "u"⟩) none =
          some (format_market_analysis (some ⟨"X", none, none, none, none, "u"⟩) none
            ⟨0, 0, 0, 0⟩)
      ∧ format_market_analysis none (some ⟨"Y", none, none, none, some 1, "u"⟩) ⟨0, 0, 0, 0⟩ =
          "📊 Market Update - 00:00 UTC\n\n🔹 NQ (Nasdaq Futures)\nCurrent/Last: 1.00\n\n⚡ Key levels extracted from TradingView OHLC data\n📈 Support = Low | Resistance = High | Current = Close\n#Trading #Futures #ES #NQ #TradingView" := by
  have h := c4_orchestrator_amended ⟨0, 0, 0, 0⟩ ⟨"X", none, none, none, none, "u"⟩
    ⟨"Y", none, none, none, some 1, "u"⟩ (by norm_num [truthy])
  refine ⟨h.1, h.2.1, ?_⟩
  rw [h.2.2.2.2]
  with_unfolding_all rfl

/-- A value produced from a regex match is non-negative: it is built from
digit runs (and a division by a power of ten), never from a sign. -/
theorem match_value_nonneg (m : List Char × Option Char × List Char) : 0 ≤ match_value m := by
  obtain ⟨d1, sep, d2⟩ := m
  unfold match_value
  split <;> positivity

/-- Every value the numeric-extraction step can return is non-negative. -/
theorem extract_number_nonneg {t : String} {v : ℚ} (h : extract_number t = some v) :
    0 ≤ v := by
  unfold extract_number at h
  cases hm : find_numeric_match t.toList with
  | none => rw [hm] at h; simp at h
  | some m =>
    rw [hm] at h
    simp only [Option.map_some'] at h
    obtain rfl : match_value m = v := Option.some.inj h
    exact match_value_nonneg m

/-- Every value the inner element loop assigns is non-negative. -/
theorem first_parse_nonneg : ∀ {ts : List String} {v : ℚ}, first_parse ts = some v → 0 ≤ v := by
  intro ts
  induction ts with
  | nil => intro v h; simp [first_parse] at h
  | cons t rest ih =>
    intro v h
    cases he : extract_number t with
    | some w =>
      simp only [first_parse, he] at h
      obtain rfl : w = v := Option.some.inj h
      exact extract_number_nonneg he
    | none =>
      simp only [first_parse, he] at h
      exact ih h

/-- The selector loop preserves non-negativity of the field value. -/
theorem scan_field_nonneg :
    ∀ (l : List (List String)) (cur : Option ℚ), 0 ≤ cur.getD 0 →
      0 ≤ (scan_field cur l).getD 0 := by
  intro l
  induction l with
  | nil => intro cur h; simpa [scan_field] using h
  | cons sel rest ih =>
    intro cur h
    cases hp : first_parse sel with
    | some w =>
      have hw := first_parse_nonneg hp
      simp only [scan_field, hp]
      split
      · simpa using hw
      · exact ih (some w) (by simpa using hw)
    | none =>
      simp only [scan_field, hp]
      split
      · exact h
      · exact ih cur h

/-- For a symbol with no hard-coded range constant, the estimation step
preserves non-negativity of all four fields (the assumed range is then 1%
of the close, so the synthesized low is 99.4% of a non-negative close). -/
theorem estimate_missing_nonneg (s : OHLCData) (h1 : s.symbol ≠ "ES1!") (h2 : s.symbol ≠ "NQ1!")
    (ho : 0 ≤ s.open_.getD 0) (hh : 0 ≤ s.high.getD 0) (hl : 0 ≤ s.low.getD 0)
    (hc : 0 ≤ s.close.getD 0) :
    0 ≤ (estimate_missing s).open_.getD 0 ∧ 0 ≤ (estimate_missing s).high.getD 0
      ∧ 0 ≤ (estimate_missing s).low.getD 0 ∧ 0 ≤ (estimate_missing s).close.getD 0 := by
  have hr : range_est s.symbol (s.close.getD 0) = s.close.getD 0 * 0.01 := by
    simp [range_est, h1, h2]
  by_cases hto : truthy s.open_ = true <;> by_cases hth : truthy s.high = true <;>
      by_cases htl : truthy s.low = true <;> by_cases htc : truthy s.close = true <;>
    refine ⟨?_, ?_, ?_, ?_⟩ <;>
    simp [estimate_missing, hto, hth, htl, htc, hr] <;>
    linarith [ho, hh, hl, hc]

/-- C6 counterexample: for symbol `ES1!` with a scraped close of `5` and no
other data, the synthesized low is `5 - 15*0.6 = -4`, a negative present
field, so the extractor does not guarantee non-negative fields. -/
theorem c6_nonneg_counterexample :
    (extract_ohlc_data "ES1!" ⟨[], [], [], [["5"]], []⟩ "t").low = some (-4)
      ∧ ¬(0 : ℚ) ≤ -4 :=
  ⟨by with_unfolding_all rfl, by norm_num⟩

/-- C6 amended: every directly parsed value is non-negative, and for any
symbol without a hard-coded range constant (so the assumed range is 1% of
the close) every field of the produced snapshot is non-negative whenever
present; only the fixed ranges of `ES1!`/`NQ1!` can push the synthesized
low below zero, and then only when the close is below `0.6` times the
range constant. -/
theorem c6_extractor_nonneg_amended (sym ts : String) (inp : ExtractInputs)
    (h1 : sym ≠ "ES1!") (h2 : sym ≠ "NQ1!") :
    0 ≤ (extract_ohlc_data sym inp ts).open_.getD 0
      ∧ 0 ≤ (extract_ohlc_data sym inp ts).high.getD 0
      ∧ 0 ≤ (extract_ohlc_data sym inp ts).low.getD 0
      ∧ 0 ≤ (extract_ohlc_data sym inp ts).close.getD 0 := by
  have ho := scan_field_nonneg inp.openTexts none (by norm_num)
  have hh := scan_field_nonneg inp.highTexts none (by norm_num)
  have hl := scan_field_nonneg inp.lowTexts none (by norm_num)
  have hc0 := scan_field_nonneg inp.closeTexts none (by norm_num)
  have hcx :
      0 ≤ (if truthy (scan_field none inp.openTexts) || truthy (scan_field none inp.highTexts)
              || truthy (scan_field none inp.lowTexts) || truthy (scan_field none inp.closeTexts)
            then scan_field none inp.closeTexts
            else
              match first_parse inp.fallbackTexts with
              | some v => some v
              | none => scan_field none inp.closeTexts).getD 0 := by
    split
    · exact hc0
    · cases hf : first_parse inp.fallbackTexts with
      | some w => simpa using first_parse_nonneg hf
      | none => simpa [hf] using hc0
  exact estimate_missing_nonneg
    { symbol := sym, open_ := scan_field none inp.openTexts,
      high := scan_field none inp.highTexts, low := scan_field none inp.lowTexts,
      close :=
        if truthy (scan_field none inp.openTexts) || truthy (scan_field none inp.highTexts)
            || truthy (scan_field none inp.lowTexts) || truthy (scan_field none inp.closeTexts)
          then scan_field none inp.closeTexts
          else
            match first_parse inp.fallbackTexts with
            | some v => some v
            | none => scan_field none inp.closeTexts,
      timestamp := ts } h1 h2 ho hh hl hcx

/-- C6 witness: a run for an unknown symbol whose close selector scraped
`"4,521.25 USD"` yields a snapshot whose four fields are all non-negative. -/
theorem c6_nonneg_witness :
    0 ≤ (extract_ohlc_data "XX1!" ⟨[], [], [], [["4,521.25 USD"]], []⟩ "t").open_.getD 0
      ∧ 0 ≤ (extract_ohlc_data "XX1!" ⟨[], [], [], [["4,521.25 USD"]], []⟩ "t").high.getD 0
      ∧ 0 ≤ (extract_ohlc_data "XX1!" ⟨[], [], [], [["4,521.25 USD"]], []⟩ "t").low.getD 0
      ∧ 0 ≤ (extract_ohlc_data "XX1!" ⟨[], [], [], [["4,521.25 USD"]], []⟩ "t").close.getD 0 :=
  c6_extractor_nonneg_amended "XX1!" "t" ⟨[], [], [], [["4,521.25 USD"]], []⟩
    (by decide) (by decide)

/-- C8: if no input selector resolves to an element, the publisher raises
the hard failure `"Could not find chat input field"`; if some input
selector resolves but no send selector does, the message is submitted via
the keyboard Enter fallback and no error is raised. -/
theorem c8_publisher_fallbacks (page : String → Bool) (msg : String) :
    ((∀ sel ∈ input_selectors, page sel = false) →
        post_to_substack_chat page msg = .error "Could not find chat input field")
      ∧ ((∃ sel ∈ input_selectors, page sel = true) →
          (∀ sel ∈ send_selectors, page sel = false) →
            post_to_substack_chat page msg = .ok { filled := msg, sent := .enterKey }) := by
  constructor
  · intro h
    have hf : input_selectors.find? page = none := by
      rw [List.find?_eq_none]
      intro x hx
      simp [h x hx]
    simp [post_to_substack_chat, hf]
  · intro h1 h2
    have hs : (input_selectors.find? page).isSome := by
      rw [List.find?_isSome]
      exact h1
    obtain ⟨y, hy⟩ := Option.isSome_iff_exists.mp hs
    have hf : send_selectors.find? page = none := by
      rw [List.find?_eq_none]
      intro x hx
      simp [h2 x hx]
    simp [post_to_substack_chat, hy, hf]

/-- C8 witness: a page answering no selector at all makes the publisher
fail hard; a page answering only the generic `"textarea"` input selector
(and no send selector) posts via the Enter fallback. -/
theorem c8_publisher_witness :
    post_to_substack_chat (fun _ => false) "msg" = .error "Could not find chat input field"
      ∧ post_to_substack_chat (fun sel => sel == "textarea") "msg" =
          .ok { filled := "msg", sent := .enterKey } :=
  ⟨(c8_publisher_fallbacks (fun _ => false) "msg").1 (by decide),
   (c8_publisher_fallbacks (fun sel => sel == "textarea") "msg").2 (by decide) (by decide)⟩
